import Mathlib

/-!
Shallow embedding of the DllCallbackC repository's dynamic-library
loading and binding core (`src/app/DllLoad/DllLoadMgr.cpp`) and of the
companion script-module library (`src/armlib/ArmDll.cpp`).

The OS-facing effects (native open, symbol lookup, native unload,
cache-file removal, existence check, log emission, entry-point calls)
are recorded as an explicit event trace; the outcomes of the OS calls
are supplied through an environment `Env` so that every control path of
the source can be exercised.
-/

namespace DllLoad

/-- One observable step of the load/bind/unload code: an OS call, a log
emission, or an invocation of a resolved entry point. -/
inductive Event where
  | osOpen (loadPath : String)
  | logOpenFailed (path : String) (cachePath : Option String)
  | lookup (name : String)
  | logSymbolMissing (reportedName : String) (loadPath : String)
  | unloadAttempt (path : String)
  | logUnloadFailed (path : String)
  | removeCache (cachePath : String)
  | logCacheDeleteFailed (cachePath : String)
  | logUnloadedWithCache (path : String) (cachePath : String)
  | logUnloadedPlain (path : String)
  | existsCheck (path : String)
  | logEmptyPath
  | logNotFound (path : String)
  | logCantLoad (path : String)
  | logInfo (msg : String)
  | call (entryPoint : String)
  deriving DecidableEq, Repr

/-- The symbol table of an opened shared library: the names for which
`GetProcAddress` / `dlsym` returns a non-null pointer. -/
structure Library where
  symbols : List String
  deriving DecidableEq, Repr

/-- Outcomes of the OS calls made by the source: whether the file
exists, whether the native open returns a non-null handle, whether the
native unload call succeeds, and whether the cache-file removal
succeeds. -/
structure Env where
  fileExists : Bool
  openOk : Bool
  lib : Library
  unloadOk : Bool
  removeOk : Bool
  deriving DecidableEq, Repr

/-- Embeds `SharedLibraryUnloader` (DllLoadMgr.cpp:63-110): the deleter
of the RAII `HandleHolder`, remembering the original path and the
optional cache path. -/
structure SharedLibraryUnloader where
  path_ : String
  cache_path_ : Option String
  deriving DecidableEq, Repr

/-- Embeds `SharedLibraryUnloader::operator()` (DllLoadMgr.cpp:72-105):
attempt the native unload; on failure log and return; on success, when a
cache path is present attempt to delete the cache file, logging the
deletion failure and returning, or logging the combined success;
otherwise log the plain unload. -/
def SharedLibraryUnloader.run (u : SharedLibraryUnloader)
    (unloadOk removeOk : Bool) : List Event :=
  if !unloadOk then
    [Event.unloadAttempt u.path_, Event.logUnloadFailed u.path_]
  else
    match u.cache_path_ with
    | some c =>
        if !removeOk then
          [Event.unloadAttempt u.path_, Event.removeCache c,
           Event.logCacheDeleteFailed c]
        else
          [Event.unloadAttempt u.path_, Event.removeCache c,
           Event.logUnloadedWithCache u.path_ c]
    | none =>
        [Event.unloadAttempt u.path_, Event.logUnloadedPlain u.path_]

/-- Embeds `GetFunctionFromSharedLibrary` (DllLoadMgr.cpp:163-172):
`dlsym` / `GetProcAddress` on the handle returns non-null exactly when
the library exports the (case-sensitively matched) name. -/
def GetFunctionFromSharedLibrary (lib : Library) (name : String) : Bool :=
  lib.symbols.contains name

/-- Embeds class `ScriptModule` (DllLoadMgr.cpp:118-161): the RAII
handle holder (carrying the unloader), the three resolved entry points
(modelled by the symbol names they were resolved from), and the original
path. -/
structure ScriptModule where
  _handle : SharedLibraryUnloader
  _getScriptModuleRevisionHash : String
  _addScripts : String
  _getScriptName : String
  _path : String
  deriving DecidableEq, Repr

/-- Embeds `ScriptModule::GetModulePath` (DllLoadMgr.cpp:149-152). -/
def ScriptModule.GetModulePath (m : ScriptModule) : String :=
  m._path

/-- Embeds `ScriptModule::CreateFromPath` (DllLoadMgr.cpp:175-235):
open the library at the cache path when one is supplied, else at the
original path; on open failure log and return the empty optional; on
success wrap the handle in the RAII holder, then resolve
`GetScriptRevisionHash`, `AddScripts`, `GetScriptName` in that order,
logging the source's literal error text on each miss (the holder's
destructor runs on every early return, which is appended to the trace);
on full success construct the `ScriptModule` (moving the holder in, so
no unload happens). Returns the result with the event trace. -/
def ScriptModule.CreateFromPath (path : String) (cache_path : Option String)
    (env : Env) : Option ScriptModule × List Event :=
  let load_path := match cache_path with
    | some c => c
    | none => path
  if !env.openOk then
    (none, [Event.osOpen load_path, Event.logOpenFailed path cache_path])
  else
    let holder : SharedLibraryUnloader := ⟨path, cache_path⟩
    if !GetFunctionFromSharedLibrary env.lib "GetScriptRevisionHash" then
      (none, [Event.osOpen load_path, Event.lookup "GetScriptRevisionHash",
              Event.logSymbolMissing "GetScriptModuleRevisionHash" load_path]
             ++ holder.run env.unloadOk env.removeOk)
    else if !GetFunctionFromSharedLibrary env.lib "AddScripts" then
      (none, [Event.osOpen load_path, Event.lookup "GetScriptRevisionHash",
              Event.lookup "AddScripts",
              Event.logSymbolMissing "AddScripts" load_path]
             ++ holder.run env.unloadOk env.removeOk)
    else if !GetFunctionFromSharedLibrary env.lib "GetScriptName" then
      (none, [Event.osOpen load_path, Event.lookup "GetScriptRevisionHash",
              Event.lookup "AddScripts", Event.lookup "GetScriptName",
              Event.logSymbolMissing "GetScriptName" load_path]
             ++ holder.run env.unloadOk env.removeOk)
    else
      (some ⟨holder, "GetScriptRevisionHash", "AddScripts", "GetScriptName",
             path⟩,
       [Event.osOpen load_path, Event.lookup "GetScriptRevisionHash",
        Event.lookup "AddScripts", Event.lookup "GetScriptName"])

/-- Embeds `DllMgr::TestDll` (DllLoadMgr.cpp:243-272): reject the empty
path before any OS call; check existence and reject a missing file; call
`CreateFromPath`; on failure log; on success log the info lines
(invoking `GetScriptRevisionHash` as the argument of the hash line),
invoke `AddScripts`, and let the module leave scope, running the
unloader. The `GetScriptName` invocation is commented out in the source
(line 268) and therefore absent. -/
def DllMgr.TestDll (dllPath : String) (env : Env) : List Event :=
  if dllPath = "" then
    [Event.logEmptyPath]
  else if !env.fileExists then
    [Event.existsCheck dllPath, Event.logNotFound dllPath]
  else
    match ScriptModule.CreateFromPath dllPath none env with
    | (none, ctr) =>
        [Event.existsCheck dllPath] ++ ctr ++ [Event.logCantLoad dllPath]
    | (some m, ctr) =>
        [Event.existsCheck dllPath] ++ ctr ++
        [Event.logInfo "Dll info:",
         Event.logInfo "Path",
         Event.call m._getScriptModuleRevisionHash,
         Event.logInfo "Hash",
         Event.call m._addScripts] ++
        m._handle.run env.unloadOk env.removeOk

/-- The symbol names looked up (resolution attempts), in trace order. -/
def lookupsOf (tr : List Event) : List String :=
  tr.filterMap fun e => match e with
    | Event.lookup n => some n
    | _ => none

/-- The entry points invoked, in trace order. -/
def callsOf (tr : List Event) : List String :=
  tr.filterMap fun e => match e with
    | Event.call n => some n
    | _ => none

/-- The symbol names reported in missing-symbol failure logs. -/
def reportedMissingOf (tr : List Event) : List String :=
  tr.filterMap fun e => match e with
    | Event.logSymbolMissing r _ => some r
    | _ => none

/-- How many native unload attempts the trace contains. -/
def unloadCount (tr : List Event) : Nat :=
  (tr.filter fun e => match e with
    | Event.unloadAttempt _ => true
    | _ => false).length

/-- The cache paths whose deletion was attempted, in trace order. -/
def removesOf (tr : List Event) : List String :=
  tr.filterMap fun e => match e with
    | Event.removeCache c => some c
    | _ => none

end DllLoad

namespace ArmDll

/-- The C-linkage symbols exported by `src/armlib/ArmDll.cpp`
(its `extern "C"` block, lines 14-62). -/
def exports : List String :=
  ["GetScriptRevisionHash", "RegisterFunctions", "Print", "PrintValue"]

/-- The mutable state of the script-module library: the two registered
callbacks (`std::function` values, empty until `RegisterFunctions`
stores non-null pointers into them). -/
structure State where
  functionBest : Option Unit
  printInt : Option Unit
  deriving DecidableEq, Repr

/-- The state at library load: both `std::function` globals are empty. -/
def initialState : State := ⟨none, none⟩

/-- One observable step of the script module: a printf diagnostic or an
invocation of a registered callback. -/
inductive ArmEvent where
  | printf (s : String)
  | invokeBest
  | invokePrintInt (a b : Int)
  deriving DecidableEq, Repr

/-- Embeds `RegisterFunctions` (ArmDll.cpp:30-34): store the two
supplied pointers into the callback globals (a null pointer yields an
empty `std::function`, modelled as `none`). -/
def RegisterFunctions (printFn printIntFn : Option Unit) (_s : State) :
    State :=
  ⟨printFn, printIntFn⟩

/-- Embeds `Print` (ArmDll.cpp:37-48): when no callback is stored,
print the diagnostic and return without invoking; otherwise print and
invoke the stored callback. -/
def Print (s : State) : List ArmEvent :=
  match s.functionBest with
  | none => [ArmEvent.printf "!functionBest"]
  | some _ => [ArmEvent.printf "Print", ArmEvent.invokeBest]

/-- Embeds `PrintValue` (ArmDll.cpp:50-61): when no callback is stored,
print the diagnostic and return without invoking; otherwise print and
invoke the stored callback with both arguments. -/
def PrintValue (value value1 : Int) (s : State) : List ArmEvent :=
  match s.printInt with
  | none => [ArmEvent.printf "!printInt"]
  | some _ => [ArmEvent.printf "PrintValue", ArmEvent.invokePrintInt value value1]

end ArmDll

namespace DllLoad

/-- A library exporting all three symbols the harness requires. -/
def fullLib : Library :=
  ⟨["GetScriptRevisionHash", "AddScripts", "GetScriptName"]⟩

/-- An environment in which every OS call succeeds against `fullLib`. -/
def okEnv : Env := ⟨true, true, fullLib, true, true⟩

/-- An environment whose library is missing `GetScriptRevisionHash`
(the first symbol in resolution order) but has the other two. -/
def envMissingFirst : Env :=
  ⟨true, true, ⟨["AddScripts", "GetScriptName"]⟩, true, true⟩

/-- An environment whose library exports no symbols at all. -/
def envMissingAll : Env := ⟨true, true, ⟨[]⟩, true, true⟩

end DllLoad

namespace DllLoad

theorem lookupsOf_append (l₁ l₂ : List Event) :
    lookupsOf (l₁ ++ l₂) = lookupsOf l₁ ++ lookupsOf l₂ := by
  simp [lookupsOf]

theorem callsOf_append (l₁ l₂ : List Event) :
    callsOf (l₁ ++ l₂) = callsOf l₁ ++ callsOf l₂ := by
  simp [callsOf]

theorem unloadCount_append (l₁ l₂ : List Event) :
    unloadCount (l₁ ++ l₂) = unloadCount l₁ + unloadCount l₂ := by
  simp [unloadCount]

theorem run_unloadCount (u : SharedLibraryUnloader) (a b : Bool) :
    unloadCount (u.run a b) = 1 := by
  cases h : u.cache_path_ <;> cases a <;> cases b <;>
    simp [SharedLibraryUnloader.run, unloadCount, h]

theorem run_lookupsOf (u : SharedLibraryUnloader) (a b : Bool) :
    lookupsOf (u.run a b) = [] := by
  cases h : u.cache_path_ <;> cases a <;> cases b <;>
    simp [SharedLibraryUnloader.run, lookupsOf, h]

theorem run_callsOf (u : SharedLibraryUnloader) (a b : Bool) :
    callsOf (u.run a b) = [] := by
  cases h : u.cache_path_ <;> cases a <;> cases b <;>
    simp [SharedLibraryUnloader.run, callsOf, h]

/-- On success, `CreateFromPath` yields the module built from the RAII
holder, the three resolved entry points and the original path. -/
theorem CreateFromPath_success_fst (path : String) (cp : Option String)
    (env : Env) (hopen : env.openOk = true)
    (h1 : GetFunctionFromSharedLibrary env.lib "GetScriptRevisionHash" = true)
    (h2 : GetFunctionFromSharedLibrary env.lib "AddScripts" = true)
    (h3 : GetFunctionFromSharedLibrary env.lib "GetScriptName" = true) :
    (ScriptModule.CreateFromPath path cp env).1
      = some ⟨⟨path, cp⟩, "GetScriptRevisionHash", "AddScripts",
              "GetScriptName", path⟩ := by
  cases cp <;> simp [ScriptModule.CreateFromPath, hopen, h1, h2, h3]

/-- On success, the trace is the open (at the cache path when supplied)
followed by the three lookups; the holder is moved into the module, so
no unload is emitted. -/
theorem CreateFromPath_success_snd (path : String) (cp : Option String)
    (env : Env) (hopen : env.openOk = true)
    (h1 : GetFunctionFromSharedLibrary env.lib "GetScriptRevisionHash" = true)
    (h2 : GetFunctionFromSharedLibrary env.lib "AddScripts" = true)
    (h3 : GetFunctionFromSharedLibrary env.lib "GetScriptName" = true) :
    (ScriptModule.CreateFromPath path cp env).2
      = [Event.osOpen (cp.getD path), Event.lookup "GetScriptRevisionHash",
         Event.lookup "AddScripts", Event.lookup "GetScriptName"] := by
  cases cp <;> simp [ScriptModule.CreateFromPath, hopen, h1, h2, h3]

/-- Failure at the first symbol (DllLoadMgr.cpp:215-219): no module. -/
theorem CreateFromPath_miss1_fst (path : String) (cp : Option String)
    (env : Env) (hopen : env.openOk = true)
    (h1 : GetFunctionFromSharedLibrary env.lib "GetScriptRevisionHash"
            = false) :
    (ScriptModule.CreateFromPath path cp env).1 = none := by
  cases cp <;> simp [ScriptModule.CreateFromPath, hopen, h1]

/-- Failure at the first symbol: open, one lookup, the log with the
source's literal reported name, then the RAII unload. -/
theorem CreateFromPath_miss1_snd (path : String) (cp : Option String)
    (env : Env) (hopen : env.openOk = true)
    (h1 : GetFunctionFromSharedLibrary env.lib "GetScriptRevisionHash"
            = false) :
    (ScriptModule.CreateFromPath path cp env).2
      = [Event.osOpen (cp.getD path), Event.lookup "GetScriptRevisionHash",
         Event.logSymbolMissing "GetScriptModuleRevisionHash" (cp.getD path)]
        ++ SharedLibraryUnloader.run ⟨path, cp⟩ env.unloadOk env.removeOk
      := by
  cases cp <;> simp [ScriptModule.CreateFromPath, hopen, h1]

/-- Failure at the second symbol (DllLoadMgr.cpp:221-225): no module. -/
theorem CreateFromPath_miss2_fst (path : String) (cp : Option String)
    (env : Env) (hopen : env.openOk = true)
    (h1 : GetFunctionFromSharedLibrary env.lib "GetScriptRevisionHash"
            = true)
    (h2 : GetFunctionFromSharedLibrary env.lib "AddScripts" = false) :
    (ScriptModule.CreateFromPath path cp env).1 = none := by
  cases cp <;> simp [ScriptModule.CreateFromPath, hopen, h1, h2]

/-- Failure at the second symbol: two lookups, the log naming
`AddScripts`, then the RAII unload. -/
theorem CreateFromPath_miss2_snd (path : String) (cp : Option String)
    (env : Env) (hopen : env.openOk = true)
    (h1 : GetFunctionFromSharedLibrary env.lib "GetScriptRevisionHash"
            = true)
    (h2 : GetFunctionFromSharedLibrary env.lib "AddScripts" = false) :
    (ScriptModule.CreateFromPath path cp env).2
      = [Event.osOpen (cp.getD path), Event.lookup "GetScriptRevisionHash",
         Event.lookup "AddScripts",
         Event.logSymbolMissing "AddScripts" (cp.getD path)]
        ++ SharedLibraryUnloader.run ⟨path, cp⟩ env.unloadOk env.removeOk
      := by
  cases cp <;> simp [ScriptModule.CreateFromPath, hopen, h1, h2]

/-- Failure at the third symbol (DllLoadMgr.cpp:227-231): no module. -/
theorem CreateFromPath_miss3_fst (path : String) (cp : Option String)
    (env : Env) (hopen : env.openOk = true)
    (h1 : GetFunctionFromSharedLibrary env.lib "GetScriptRevisionHash"
            = true)
    (h2 : GetFunctionFromSharedLibrary env.lib "AddScripts" = true)
    (h3 : GetFunctionFromSharedLibrary env.lib "GetScriptName" = false) :
    (ScriptModule.CreateFromPath path cp env).1 = none := by
  cases cp <;> simp [ScriptModule.CreateFromPath, hopen, h1, h2, h3]

/-- Failure at the third symbol: three lookups, the log naming
`GetScriptName`, then the RAII unload. -/
theorem CreateFromPath_miss3_snd (path : String) (cp : Option String)
    (env : Env) (hopen : env.openOk = true)
    (h1 : GetFunctionFromSharedLibrary env.lib "GetScriptRevisionHash"
            = true)
    (h2 : GetFunctionFromSharedLibrary env.lib "AddScripts" = true)
    (h3 : GetFunctionFromSharedLibrary env.lib "GetScriptName" = false) :
    (ScriptModule.CreateFromPath path cp env).2
      = [Event.osOpen (cp.getD path), Event.lookup "GetScriptRevisionHash",
         Event.lookup "AddScripts", Event.lookup "GetScriptName",
         Event.logSymbolMissing "GetScriptName" (cp.getD path)]
        ++ SharedLibraryUnloader.run ⟨path, cp⟩ env.unloadOk env.removeOk
      := by
  cases cp <;> simp [ScriptModule.CreateFromPath, hopen, h1, h2, h3]

theorem unloadCount_prefix_run (l : List Event) (u : SharedLibraryUnloader)
    (a b : Bool) (hl : unloadCount l = 0) :
    unloadCount (l ++ u.run a b) = 1 := by
  rw [unloadCount_append, hl, run_unloadCount]

end DllLoad


namespace DllLoad

/-- C1: for every load attempt whose native open succeeded, a
`ScriptModule` is constructed exactly when all three required symbols
(`GetScriptRevisionHash`, `AddScripts`, `GetScriptName`) resolve, and on
every partial-failure path `CreateFromPath` returns the failure value
with the already-opened handle released (exactly one native unload in
the trace) before returning. -/
theorem C1_all_or_nothing (path : String) (cp : Option String) (env : Env)
    (hopen : env.openOk = true) :
    ((ScriptModule.CreateFromPath path cp env).1.isSome = true ↔
      (GetFunctionFromSharedLibrary env.lib "GetScriptRevisionHash" = true ∧
       GetFunctionFromSharedLibrary env.lib "AddScripts" = true ∧
       GetFunctionFromSharedLibrary env.lib "GetScriptName" = true)) ∧
    ((ScriptModule.CreateFromPath path cp env).1 = none →
      unloadCount (ScriptModule.CreateFromPath path cp env).2 = 1) := by
  cases h1 : GetFunctionFromSharedLibrary env.lib "GetScriptRevisionHash" <;>
  cases h2 : GetFunctionFromSharedLibrary env.lib "AddScripts" <;>
  cases h3 : GetFunctionFromSharedLibrary env.lib "GetScriptName" <;>
    first
    | (rw [CreateFromPath_miss1_fst path cp env hopen h1,
           CreateFromPath_miss1_snd path cp env hopen h1]
       exact ⟨by simp [h1], fun _ =>
         unloadCount_prefix_run _ _ _ _ (by simp [unloadCount])⟩)
    | (rw [CreateFromPath_miss2_fst path cp env hopen h1 h2,
           CreateFromPath_miss2_snd path cp env hopen h1 h2]
       exact ⟨by simp [h2], fun _ =>
         unloadCount_prefix_run _ _ _ _ (by simp [unloadCount])⟩)
    | (rw [CreateFromPath_miss3_fst path cp env hopen h1 h2 h3,
           CreateFromPath_miss3_snd path cp env hopen h1 h2 h3]
       exact ⟨by simp [h3], fun _ =>
         unloadCount_prefix_run _ _ _ _ (by simp [unloadCount])⟩)
    | (rw [CreateFromPath_success_fst path cp env hopen h1 h2 h3]
       exact ⟨by simp [h1, h2, h3], by simp⟩)

/-- C1 witness: on an open-succeeding environment whose library exports
nothing, construction fails and the handle is unloaded exactly once. -/
theorem C1_all_or_nothing_witness :
    unloadCount (ScriptModule.CreateFromPath "a.so" none envMissingAll).2
      = 1 :=
  (C1_all_or_nothing "a.so" none envMissingAll rfl).2 (by decide)

/-- C2: whenever the open succeeded, the symbols are looked up in the
exact order `GetScriptRevisionHash`, `AddScripts`, `GetScriptName`, and
resolution stops at the first missing symbol: the sequence of lookups is
exactly the prefix of that order up to and including the first miss. -/
theorem C2_resolution_order (path : String) (cp : Option String) (env : Env)
    (hopen : env.openOk = true) :
    lookupsOf (ScriptModule.CreateFromPath path cp env).2 =
      if GetFunctionFromSharedLibrary env.lib "GetScriptRevisionHash" = false
      then ["GetScriptRevisionHash"]
      else if GetFunctionFromSharedLibrary env.lib "AddScripts" = false
      then ["GetScriptRevisionHash", "AddScripts"]
      else ["GetScriptRevisionHash", "AddScripts", "GetScriptName"] := by
  cases h1 : GetFunctionFromSharedLibrary env.lib "GetScriptRevisionHash" <;>
  cases h2 : GetFunctionFromSharedLibrary env.lib "AddScripts" <;>
  cases h3 : GetFunctionFromSharedLibrary env.lib "GetScriptName" <;>
    first
    | (rw [CreateFromPath_miss1_snd path cp env hopen h1, lookupsOf_append,
           run_lookupsOf]
       simp [lookupsOf, h1, h2, h3])
    | (rw [CreateFromPath_miss2_snd path cp env hopen h1 h2, lookupsOf_append,
           run_lookupsOf]
       simp [lookupsOf, h1, h2, h3])
    | (rw [CreateFromPath_miss3_snd path cp env hopen h1 h2 h3,
           lookupsOf_append, run_lookupsOf]
       simp [lookupsOf, h1, h2, h3])
    | (rw [CreateFromPath_success_snd path cp env hopen h1 h2 h3]
       simp [lookupsOf, h1, h2, h3])

/-- C2 witness: with the first symbol missing, only that one lookup is
performed. -/
theorem C2_resolution_order_witness :
    lookupsOf (ScriptModule.CreateFromPath "m.so" none envMissingFirst).2
      = ["GetScriptRevisionHash"] := by
  have h := C2_resolution_order "m.so" none envMissingFirst rfl
  simpa [GetFunctionFromSharedLibrary, envMissingFirst] using h

/-- C3: code bug at the failing input of a library missing only
`GetScriptRevisionHash`: binding fails after exactly that one lookup and
the handle is unloaded, but the failure report names
`GetScriptModuleRevisionHash` — a name different from the symbol that
was actually looked up and missing (DllLoadMgr.cpp:217's literal log
text versus the name resolved at line 215). -/
theorem C3_first_report_names_wrong_symbol :
    (ScriptModule.CreateFromPath "m.so" none envMissingFirst).1 = none ∧
    lookupsOf (ScriptModule.CreateFromPath "m.so" none envMissingFirst).2
      = ["GetScriptRevisionHash"] ∧
    reportedMissingOf
      (ScriptModule.CreateFromPath "m.so" none envMissingFirst).2
      = ["GetScriptModuleRevisionHash"] ∧
    "GetScriptModuleRevisionHash" ≠ "GetScriptRevisionHash" ∧
    unloadCount (ScriptModule.CreateFromPath "m.so" none envMissingFirst).2
      = 1 := by
  decide

/-- C3 auxiliary finding: for the other two symbols the report does name
exactly the first missing symbol, and the handle is unloaded. -/
theorem C3_later_reports_match (path : String) (cp : Option String)
    (env : Env) (hopen : env.openOk = true)
    (h1 : GetFunctionFromSharedLibrary env.lib "GetScriptRevisionHash"
            = true) :
    reportedMissingOf (ScriptModule.CreateFromPath path cp env).2 =
      (if GetFunctionFromSharedLibrary env.lib "AddScripts" = false
       then ["AddScripts"]
       else if GetFunctionFromSharedLibrary env.lib "GetScriptName" = false
       then ["GetScriptName"]
       else []) ∧
    ((ScriptModule.CreateFromPath path cp env).1 = none →
      unloadCount (ScriptModule.CreateFromPath path cp env).2 = 1) := by
  cases h2 : GetFunctionFromSharedLibrary env.lib "AddScripts" <;>
  cases h3 : GetFunctionFromSharedLibrary env.lib "GetScriptName" <;>
    simp [ScriptModule.CreateFromPath, hopen, h1, h2, h3,
      unloadCount_append, run_unloadCount, unloadCount,
      reportedMissingOf, SharedLibraryUnloader.run] <;>
    cases henv : env.unloadOk <;> cases henv2 : env.removeOk <;>
    cases cp <;>
    simp [SharedLibraryUnloader.run, reportedMissingOf]

/-- C3 auxiliary witness: a library missing only `AddScripts` has the
report name exactly `AddScripts`. -/
theorem C3_later_reports_match_witness :
    reportedMissingOf
      (ScriptModule.CreateFromPath "m.so" none
        ⟨true, true, ⟨["GetScriptRevisionHash", "GetScriptName"]⟩, true,
         true⟩).2 = ["AddScripts"] := by
  have h := (C3_later_reports_match "m.so" none
    ⟨true, true, ⟨["GetScriptRevisionHash", "GetScriptName"]⟩, true, true⟩
    rfl (by decide)).1
  simpa [GetFunctionFromSharedLibrary] using h

end DllLoad

namespace DllLoad

/-- Pair-level form of the success case of `CreateFromPath`, used to
reduce the match in `TestDll`. -/
theorem CreateFromPath_pair_success (path : String) (cp : Option String)
    (env : Env) (hopen : env.openOk = true)
    (h1 : GetFunctionFromSharedLibrary env.lib "GetScriptRevisionHash" = true)
    (h2 : GetFunctionFromSharedLibrary env.lib "AddScripts" = true)
    (h3 : GetFunctionFromSharedLibrary env.lib "GetScriptName" = true) :
    ScriptModule.CreateFromPath path cp env
      = (some ⟨⟨path, cp⟩, "GetScriptRevisionHash", "AddScripts",
               "GetScriptName", path⟩,
         [Event.osOpen (cp.getD path), Event.lookup "GetScriptRevisionHash",
          Event.lookup "AddScripts", Event.lookup "GetScriptName"]) := by
  cases cp <;> simp [ScriptModule.CreateFromPath, hopen, h1, h2, h3]

/-- C4: during release, the cache file removal is attempted only when
the native unload call succeeded; when the unload fails the trace is
exactly the failed attempt and its error log (no deletion); when the
unload succeeds and a cache path is held, the removal follows the unload
and a removal failure only appends an error log — no retry, no further
action on the handle. -/
theorem C4_cache_delete_discipline (u : SharedLibraryUnloader)
    (unloadOk removeOk : Bool) :
    (removesOf (u.run unloadOk removeOk) ≠ [] → unloadOk = true) ∧
    (unloadOk = false →
      u.run false removeOk
        = [Event.unloadAttempt u.path_, Event.logUnloadFailed u.path_]) ∧
    (∀ c, u.cache_path_ = some c → unloadOk = true →
      u.run true removeOk
        = [Event.unloadAttempt u.path_, Event.removeCache c]
          ++ (if removeOk = false then [Event.logCacheDeleteFailed c]
              else [Event.logUnloadedWithCache u.path_ c])) := by
  refine ⟨?_, ?_, ?_⟩
  · intro hne
    cases unloadOk
    · exact absurd (by simp [SharedLibraryUnloader.run, removesOf]) hne
    · rfl
  · intro _
    simp [SharedLibraryUnloader.run]
  · intro c hc _
    cases removeOk <;> simp [SharedLibraryUnloader.run, hc]

/-- C4 witness: with a cache path held, a successful unload followed by
a failing removal yields exactly the unload, the removal attempt, and
the removal-failure log. -/
theorem C4_cache_delete_discipline_witness :
    SharedLibraryUnloader.run ⟨"p.so", some "c.so"⟩ true false
      = [Event.unloadAttempt "p.so", Event.removeCache "c.so",
         Event.logCacheDeleteFailed "c.so"] := by
  have h := (C4_cache_delete_discipline ⟨"p.so", some "c.so"⟩ true false).2.2
    "c.so" rfl rfl
  simpa using h

/-- C5: for a non-empty path to a file that does not exist, `TestDll`
emits only the existence check and the not-found error naming the path:
no native open and zero symbol-resolution attempts. -/
theorem C5_missing_file_no_resolution (dllPath : String) (env : Env)
    (hne : dllPath ≠ "") (hex : env.fileExists = false) :
    DllMgr.TestDll dllPath env
      = [Event.existsCheck dllPath, Event.logNotFound dllPath] ∧
    lookupsOf (DllMgr.TestDll dllPath env) = [] ∧
    (∀ p, Event.osOpen p ∉ DllMgr.TestDll dllPath env) := by
  have h : DllMgr.TestDll dllPath env
      = [Event.existsCheck dllPath, Event.logNotFound dllPath] := by
    simp [DllMgr.TestDll, hne, hex]
  refine ⟨h, ?_, ?_⟩ <;> simp [h, lookupsOf]

/-- C5 witness at a concrete missing file. -/
theorem C5_missing_file_no_resolution_witness :
    lookupsOf (DllMgr.TestDll "x.dll" ⟨false, true, fullLib, true, true⟩)
      = [] :=
  (C5_missing_file_no_resolution "x.dll" ⟨false, true, fullLib, true, true⟩
    (by decide) rfl).2.1

/-- C6: the empty path is rejected immediately with the distinct
empty-path error, before any OS interaction: the trace is exactly the
error log — no existence check, no native open, no lookup. -/
theorem C6_empty_path_rejected_first (env : Env) :
    DllMgr.TestDll "" env = [Event.logEmptyPath] ∧
    lookupsOf (DllMgr.TestDll "" env) = [] ∧
    (∀ p, Event.existsCheck p ∉ DllMgr.TestDll "" env) ∧
    (∀ p, Event.osOpen p ∉ DllMgr.TestDll "" env) := by
  have h : DllMgr.TestDll "" env = [Event.logEmptyPath] := by
    simp [DllMgr.TestDll]
  refine ⟨h, ?_, ?_, ?_⟩ <;> simp [h, lookupsOf]

/-- C7 counterexample: on a fully successful load at a concrete
conformant environment, `GetScriptName` is NOT invoked exactly once (its
invocation at DllLoadMgr.cpp:268 is commented out), refuting the claim
that each of the three resolved entry points is invoked once. -/
theorem C7_getScriptName_not_invoked :
    ¬ ((callsOf (DllMgr.TestDll "m.so" okEnv)).count "GetScriptName" = 1)
      := by
  decide

/-- C7 amended: on a fully successful load-and-bind, the harness invokes
`GetScriptRevisionHash` and `AddScripts` exactly once each (in that
order), logging the path and hash lines, while `GetScriptName` is
resolved but never invoked, and the module is unloaded on scope exit
after those calls. -/
theorem C7_invocations_on_success (path : String) (env : Env)
    (hne : path ≠ "") (hex : env.fileExists = true)
    (hopen : env.openOk = true)
    (h1 : GetFunctionFromSharedLibrary env.lib "GetScriptRevisionHash" = true)
    (h2 : GetFunctionFromSharedLibrary env.lib "AddScripts" = true)
    (h3 : GetFunctionFromSharedLibrary env.lib "GetScriptName" = true) :
    DllMgr.TestDll path env
      = [Event.existsCheck path, Event.osOpen path,
         Event.lookup "GetScriptRevisionHash", Event.lookup "AddScripts",
         Event.lookup "GetScriptName", Event.logInfo "Dll info:",
         Event.logInfo "Path", Event.call "GetScriptRevisionHash",
         Event.logInfo "Hash", Event.call "AddScripts"]
        ++ SharedLibraryUnloader.run ⟨path, none⟩ env.unloadOk env.removeOk ∧
    callsOf (DllMgr.TestDll path env)
      = ["GetScriptRevisionHash", "AddScripts"] := by
  have h : DllMgr.TestDll path env
      = [Event.existsCheck path, Event.osOpen path,
         Event.lookup "GetScriptRevisionHash", Event.lookup "AddScripts",
         Event.lookup "GetScriptName", Event.logInfo "Dll info:",
         Event.logInfo "Path", Event.call "GetScriptRevisionHash",
         Event.logInfo "Hash", Event.call "AddScripts"]
        ++ SharedLibraryUnloader.run ⟨path, none⟩ env.unloadOk env.removeOk
      := by
    simp [DllMgr.TestDll, hne, hex,
      CreateFromPath_pair_success path none env hopen h1 h2 h3]
  refine ⟨h, ?_⟩
  rw [h, callsOf_append, run_callsOf]
  simp [callsOf]

/-- C7 witness: the amended invocation pattern at a concrete conformant
environment. -/
theorem C7_invocations_on_success_witness :
    callsOf (DllMgr.TestDll "m.so" okEnv)
      = ["GetScriptRevisionHash", "AddScripts"] :=
  (C7_invocations_on_success "m.so" okEnv (by decide) rfl rfl rfl rfl rfl).2

/-- C8: code bug in the companion library: its `extern "C"` block
exports `GetScriptRevisionHash` but exports neither `AddScripts` nor
`GetScriptName` (it exports `RegisterFunctions`, `Print`, `PrintValue`
instead, with doc comments still describing the module contract), so a
harness bind against it fails at `AddScripts`. -/
theorem C8_companion_exports_mismatch :
    ArmDll.exports.contains "GetScriptRevisionHash" = true ∧
    ArmDll.exports.contains "AddScripts" = false ∧
    ArmDll.exports.contains "GetScriptName" = false ∧
    (ScriptModule.CreateFromPath "script_arm.dll" none
        ⟨true, true, ⟨ArmDll.exports⟩, true, true⟩).1 = none ∧
    reportedMissingOf (ScriptModule.CreateFromPath "script_arm.dll" none
        ⟨true, true, ⟨ArmDll.exports⟩, true, true⟩).2 = ["AddScripts"] := by
  decide

/-- C10: for every successful `CreateFromPath`, the native open was
performed at the cache path when one was supplied and at the original
path otherwise (the first trace event), while the constructed module
stores the original path, so `GetModulePath` returns the original
library path. -/
theorem C10_open_path_vs_stored_path (path : String) (cp : Option String)
    (env : Env) (m : ScriptModule)
    (h : (ScriptModule.CreateFromPath path cp env).1 = some m) :
    m.GetModulePath = path ∧
    (ScriptModule.CreateFromPath path cp env).2.head?
      = some (Event.osOpen (cp.getD path)) := by
  cases hopen : env.openOk
  · cases cp <;> simp [ScriptModule.CreateFromPath, hopen] at h
  · cases h1 : GetFunctionFromSharedLibrary env.lib "GetScriptRevisionHash"
    · rw [CreateFromPath_miss1_fst path cp env hopen h1] at h
      simp at h
    · cases h2 : GetFunctionFromSharedLibrary env.lib "AddScripts"
      · rw [CreateFromPath_miss2_fst path cp env hopen h1 h2] at h
        simp at h
      · cases h3 : GetFunctionFromSharedLibrary env.lib "GetScriptName"
        · rw [CreateFromPath_miss3_fst path cp env hopen h1 h2 h3] at h
          simp at h
        · have hm : m = ⟨⟨path, cp⟩, "GetScriptRevisionHash", "AddScripts",
              "GetScriptName", path⟩ := by
            rw [CreateFromPath_success_fst path cp env hopen h1 h2 h3] at h
            exact (Option.some.inj h).symm
          subst hm
          refine ⟨rfl, ?_⟩
          rw [CreateFromPath_success_snd path cp env hopen h1 h2 h3]
          simp

/-- C10 witness: a concrete load through a cache path opens the cache
path but reports the original path as the module path. -/
theorem C10_open_path_vs_stored_path_witness :
    ScriptModule.GetModulePath
      ⟨⟨"orig.dll", some "cache.dll"⟩, "GetScriptRevisionHash", "AddScripts",
       "GetScriptName", "orig.dll"⟩ = "orig.dll" ∧
    (ScriptModule.CreateFromPath "orig.dll" (some "cache.dll") okEnv).2.head?
      = some (Event.osOpen ((some "cache.dll").getD "orig.dll")) :=
  C10_open_path_vs_stored_path "orig.dll" (some "cache.dll") okEnv
    ⟨⟨"orig.dll", some "cache.dll"⟩, "GetScriptRevisionHash", "AddScripts",
     "GetScriptName", "orig.dll"⟩ (by decide)

end DllLoad

/-- C9: whenever no callback has been stored (the `std::function`
global is empty, as at library load and after registering null
pointers), `Print` and `PrintValue` print only their diagnostic and
return without invoking any callback — an empty registered function is
never called. -/
theorem C9_null_callbacks_never_invoked (s : ArmDll.State) (v v1 : Int) :
    (s.functionBest = none →
      ArmDll.Print s = [ArmDll.ArmEvent.printf "!functionBest"] ∧
      ArmDll.ArmEvent.invokeBest ∉ ArmDll.Print s) ∧
    (s.printInt = none →
      ArmDll.PrintValue v v1 s = [ArmDll.ArmEvent.printf "!printInt"] ∧
      ∀ a b, ArmDll.ArmEvent.invokePrintInt a b ∉ ArmDll.PrintValue v v1 s) ∧
    (ArmDll.RegisterFunctions none none s).functionBest = none ∧
    (ArmDll.RegisterFunctions none none s).printInt = none ∧
    ArmDll.initialState.functionBest = none ∧
    ArmDll.initialState.printInt = none := by
  refine ⟨?_, ?_, rfl, rfl, rfl, rfl⟩
  · intro h
    simp [ArmDll.Print, h]
  · intro h
    simp [ArmDll.PrintValue, h]

/-- C9 witness: at the load-time state, `Print` returns after only the
diagnostic. -/
theorem C9_null_callbacks_never_invoked_witness :
    ArmDll.Print ArmDll.initialState
      = [ArmDll.ArmEvent.printf "!functionBest"] ∧
    ArmDll.ArmEvent.invokeBest ∉ ArmDll.Print ArmDll.initialState :=
  (C9_null_callbacks_never_invoked ArmDll.initialState 1 2).1 rfl
